import Mathlib

/-!
Verification of the doctor-search tool (`agent.py`): a location-resolution
pipeline (`find_doctors`) built over three HTTP collaborators (IP geolocation,
city geocoding, nearby search), a pure great-circle distance helper
(`haversine_km`), and a text formatter.

Modelling choices, each tied to the source:
* A collaborator's HTTP response is a value of type `Except Unit J` where `J`
  is the parsed JSON shape: `Except.error ()` stands for a network or JSON
  failure (a raised `requests` exception), `Except.ok j` for a parsed body.
  JSON fields that the source reads with `.get` are `Option`-typed; a field
  the source indexes directly (`data["status"]`) is also `Option`-typed, and
  the `none` case is handled exactly as Python would (a `KeyError`, caught or
  not depending on the source's `try` blocks).
* A Python function that can raise across its own boundary returns
  `Except Unit _`; `find_doctors` has no active `try`/`except` (the one around
  the nearby-search call is commented out in the source), so every uncaught
  exception surfaces as `Except.error ()` in the trace's `result` field.
* Python truthiness drives the source's branching (`if city and not (lat and
  lng)`); it is modelled by `truthyStr` / `truthyOpt` (`None`, `0.0` and `""`
  are falsy).
* Numbers carried by JSON and coordinates are modelled as `Rat` so every
  pipeline computation is kernel-executable.  The one float computation,
  `round(haversine_km(...), 1)`, is transcendental and not kernel-computable,
  so the pipeline takes that rounded-distance computation as an explicit
  function parameter `dist`; the mathematics of `haversine_km` itself is
  verified separately over `ℝ` below.
* Each call of `find_doctors` is observed through a `FindTrace`: which
  collaborators were invoked, the resolved label, the exact request sent to
  the nearby-search collaborator, the rendered listing lines, and the result
  (a returned value or an escaped exception).
-/

/-- Python truthiness of an optional number: `None` and `0.0` are falsy. -/
def truthyOpt : Option Rat → Bool
  | none => false
  | some v => decide (v ≠ 0)

/-- Python truthiness of an optional string: `None` and `""` are falsy. -/
def truthyStr : Option String → Bool
  | none => false
  | some s => decide (s ≠ "")

/-- Python `x or d` for an optional string `x`: the string when truthy, else `d`. -/
def pyStrOr (x : Option String) (d : String) : String :=
  match x with
  | some s => if s ≠ "" then s else d
  | none => d

/-- Python `str.strip()`: remove leading and trailing whitespace.  Defined
structurally over the character list so the kernel can evaluate it on
literals. -/
def pyStrip (s : String) : String :=
  ⟨((s.data.dropWhile Char.isWhitespace).reverse.dropWhile Char.isWhitespace).reverse⟩

/-- A `geometry.location` object: `{lat, lng}` (JSON numbers as `Rat`). -/
structure GeoLocation where
  lat : Rat
  lng : Rat
deriving DecidableEq, Inhabited

/-- Parsed body of the geocoding collaborator's response:
`{status, results: [{geometry: {location}}]}`.  Each listed result carries its
`geometry.location`; a body whose `results` key is missing or malformed is a
parse failure at the collaborator boundary (`Except.error`). -/
structure GeoJson where
  status : Option String
  results : List GeoLocation
deriving DecidableEq, Inhabited

/-- Parsed body of the IP-geolocation collaborator's response
(`{status, city, countryCode, lat, lon}`); every field is read with `.get` or
direct indexing inside a `try`, so all are `Option`-typed. -/
structure IpJson where
  status : Option String
  city : Option String
  countryCode : Option String
  lat : Option Rat
  lon : Option Rat
deriving DecidableEq, Inhabited

/-- The dict returned by `get_location_from_ip` on success
(`{city, country, lat, lng}`, agent.py lines 31–36). -/
structure IpData where
  city : String
  country : String
  lat : Rat
  lng : Rat
deriving DecidableEq, Inhabited

/-- An `opening_hours` object; `open_now` may be absent. -/
structure OpeningHours where
  open_now : Option Bool
deriving DecidableEq, Inhabited

/-- One raw entry of the nearby-search `results` list.  Fields the source reads
with `.get` are `Option`-typed with the source's defaults applied later;
`geometry.location` is indexed directly (`p["geometry"]["location"]`), so its
absence raises. -/
structure PlaceJson where
  name : Option String
  vicinity : Option String
  rating : Option Rat
  user_ratings_total : Option Nat
  geometry_location : Option GeoLocation
  opening_hours : Option OpeningHours
deriving DecidableEq, Inhabited

/-- Parsed body of the nearby-search collaborator's response
(`{status, results}`); the source reads both with `.get`. -/
structure PlacesJson where
  status : Option String
  results : Option (List PlaceJson)
deriving DecidableEq, Inhabited

/-- Embedding of `geocode_city` (agent.py lines 41–49).  The HTTP call has no `try`/`except`
in the source, so a network or JSON failure (`Except.error`) propagates as an
exception; likewise `r["results"][0]` raises `IndexError` when the status is
`"OK"` but the result list is empty.  Otherwise it returns `(lat, lng)` of the
first result on status `"OK"` and `(None, None)` on any other status. -/
def geocode_city (resp : Except Unit GeoJson) : Except Unit (Option Rat × Option Rat) :=
  match resp with
  | .error e => .error e
  | .ok r =>
    if r.status = some "OK" then
      match r.results with
      | [] => .error ()
      | loc :: _ => .ok (some loc.lat, some loc.lng)
    else
      .ok (none, none)

/-- Embedding of `get_location_from_ip` (agent.py lines 25–39).  The whole body sits in a
`try` whose `except` swallows every failure and falls through to `return None`,
so this function is total: any network failure, missing key, or non-`"success"`
status yields `none`. -/
def get_location_from_ip (resp : Except Unit IpJson) : Option IpData :=
  match resp with
  | .error _ => none
  | .ok data =>
    match data.status with
    | none => none
    | some st =>
      if st = "success" then
        match data.lat, data.lon with
        | some la, some lo =>
          some { city := data.city.getD "Unknown"
                 country := data.countryCode.getD ""
                 lat := la
                 lng := lo }
        | _, _ => none
      else none

/-- Outcome of the location-resolution prologue of `find_doctors`
(agent.py lines 79–95). -/
inductive Resolution where
  /-- An uncaught exception escaped from `geocode_city`. -/
  | exn (usedGeo : Bool)
  /-- Both legs exhausted: return the location error dict. -/
  | failed (usedGeo : Bool)
  /-- A coordinate and display label were obtained. -/
  | resolved (lat lng : Rat) (label : String) (usedGeo usedIp : Bool)
deriving DecidableEq

/-- Location resolution of `find_doctors` (agent.py lines 79–95):
`if city and not (lat and lng): lat, lng = geocode_city(city)`, then
`if not (lat and lng):` try IP detection, else
`detected_city = city or "your area"`.  Both guards use Python truthiness, so
a `0.0` coordinate counts as missing. -/
def resolve_location (city : Option String) (lat0 lng0 : Option Rat)
    (geoResp : Except Unit GeoJson) (ipResp : Except Unit IpJson) : Resolution :=
  let callGeo := truthyStr city && !(truthyOpt lat0 && truthyOpt lng0)
  match (if callGeo then geocode_city geoResp else .ok (lat0, lng0)) with
  | .error _ => .exn callGeo
  | .ok (lat1, lng1) =>
    if !(truthyOpt lat1 && truthyOpt lng1) then
      match get_location_from_ip ipResp with
      | some ip => .resolved ip.lat ip.lng (ip.city ++ ", " ++ ip.country) callGeo true
      | none => .failed callGeo
    else
      -- here `truthyOpt` guarantees both are `some` of a nonzero value
      .resolved (lat1.getD 0) (lng1.getD 0) (pyStrOr city "your area") callGeo false

/-- The request parameters sent to the nearby-search collaborator
(agent.py lines 100–105): origin coordinate, radius in meters, keyword. -/
structure NearbyRequest where
  lat : Rat
  lng : Rat
  radius : Int
  keyword : String
deriving DecidableEq, Inhabited

/-- A value returned by `find_doctors`: either the error dict
`{"error": msg}` or the formatted text block. -/
inductive FindResult where
  | err (msg : String)
  | text (s : String)
deriving DecidableEq

/-- One entry of the `results` list built in agent.py lines 127–134, with the
source's field defaults applied. -/
structure ResultEntry where
  name : String
  address : String
  rating : Option Rat
  reviews : Nat
  distance_km : Rat
  open_now : Option Bool
deriving DecidableEq, Inhabited

/-- The dict appended for one place (agent.py lines 127–134): defaults
`"Unknown"`, `"No address"`, reviews `0`; a missing rating keeps `none`
(rendered later as `"No rating"`); `open_now` is
`p.get("opening_hours", {}).get("open_now")`. -/
def mkEntry (dist : Rat → Rat → Rat → Rat → Rat) (lat lng : Rat)
    (loc : GeoLocation) (p : PlaceJson) : ResultEntry :=
  { name := p.name.getD "Unknown"
    address := p.vicinity.getD "No address"
    rating := p.rating
    reviews := p.user_ratings_total.getD 0
    distance_km := dist lat lng loc.lat loc.lng
    open_now := p.opening_hours.bind fun oh => oh.open_now }

/-- The result-building loop (agent.py lines 122–134): each place's
`p["geometry"]["location"]` is indexed directly, so a missing geometry raises
(`Except.error`); otherwise entries are built in list order. -/
def buildResults (dist : Rat → Rat → Rat → Rat → Rat) (lat lng : Rat) :
    List PlaceJson → Except Unit (List ResultEntry)
  | [] => .ok []
  | p :: ps =>
    match p.geometry_location with
    | none => .error ()
    | some loc =>
      match buildResults dist lat lng ps with
      | .error e => .error e
      | .ok es => .ok (mkEntry dist lat lng loc p :: es)

/-- Python `str` of the `open_now` value (`None` / `True` / `False`). -/
def pyOptBoolStr : Option Bool → String
  | none => "None"
  | some true => "True"
  | some false => "False"

/-- Textual rendering of a JSON number.  Stand-in for Python's decimal float
rendering; no property verified here inspects the digits it produces. -/
def ratStr (q : Rat) : String := toString q

/-- The rating slot of a listing line: the number, or the default string
`"No rating"` substituted by `p.get("rating", "No rating")`. -/
def ratingStr : Option Rat → String
  | some r => ratStr r
  | none => "No rating"

/-- One listing line (agent.py lines 138–140):
`f"{i}. {name} • {rating} {reviews} • {distance_km} • {open_now}"`. -/
def lineFor (i : Nat) (d : ResultEntry) : String :=
  toString i ++ ". " ++ d.name ++ " • " ++ ratingStr d.rating ++ " " ++
    toString d.reviews ++ " • " ++ ratStr d.distance_km ++ " • " ++
    pyOptBoolStr d.open_now

/-- The `enumerate(results, 1)` loop (agent.py lines 136–140): one line per
entry, numbering from `i`. -/
def renderLines : List ResultEntry → Nat → List String
  | [], _ => []
  | d :: ds, i => lineFor i d :: renderLines ds (i + 1)

/-- The final multi-line f-string returned on success (agent.py lines
144–150), with `specialty or 'doctors'` by Python truthiness. -/
def finalText (specialty : Option String) (label formatted : String) : String :=
  "\n    Here are the top " ++ pyStrOr specialty "doctors" ++ " near " ++ label ++
    ":\n\n    " ++ formatted ++
    "\n\n    Do you want directions, phone number, or another specialty?\n    "

/-- Observable trace of one `find_doctors` call: which collaborators were
invoked, the resolved display label, the request sent to the nearby-search
collaborator (recorded iff that HTTP call is issued), the rendered listing
lines (recorded iff a listing is rendered), and the returned value —
`Except.error ()` when an uncaught exception escapes the function. -/
structure FindTrace where
  calledGeocode : Bool
  calledIp : Bool
  resolvedLabel : Option String
  nearbyRequest : Option NearbyRequest
  renderedLines : Option (List String)
  result : Except Unit FindResult

/-- Embedding of `math.radians`: degrees to radians. -/
noncomputable def radians (d : ℝ) : ℝ := d * Real.pi / 180

/-- Embedding of `math.atan2 y x`, by its standard piecewise definition (the value on the
branch cut and at the origin matches C/Python `atan2`). -/
noncomputable def atan2 (y x : ℝ) : ℝ :=
  if 0 < x then Real.arctan (y / x)
  else if x < 0 ∧ 0 ≤ y then Real.arctan (y / x) + Real.pi
  else if x < 0 ∧ y < 0 then Real.arctan (y / x) - Real.pi
  else if x = 0 ∧ 0 < y then Real.pi / 2
  else if x = 0 ∧ y < 0 then -(Real.pi / 2)
  else 0

/-- Embedding of `haversine_km` (agent.py lines 18–23), over `ℝ`: with `R = 6371`,
`a = sin²(Δlat/2) + cos(lat1)·cos(lat2)·sin²(Δlng/2)` and the distance is
`R * 2 * atan2(√a, √(1−a))`.  The local variable `a` of the source is inlined
(the function is pure). -/
noncomputable def haversine_km (lat1 lng1 lat2 lng2 : ℝ) : ℝ :=
  6371 * 2 *
    atan2
      (Real.sqrt (Real.sin (radians (lat2 - lat1) / 2) ^ 2 +
        Real.cos (radians lat1) * Real.cos (radians lat2) *
          Real.sin (radians (lng2 - lng1) / 2) ^ 2))
      (Real.sqrt (1 - (Real.sin (radians (lat2 - lat1) / 2) ^ 2 +
        Real.cos (radians lat1) * Real.cos (radians lat2) *
          Real.sin (radians (lng2 - lng1) / 2) ^ 2)))

/-- Handling of the nearby-search response (agent.py lines 108–150), from the
point where the HTTP response body is in hand: status checks, the `[:12]` cap,
the empty-list error (formatted with the requested `radius_km` and the
resolved label), result building and rendering.  Returns the rendered lines
(when a listing is rendered) and the function's result.  The `try`/`except`
around this stage is commented out in the source, so a failing response
(`Except.error`) escapes as an exception, as does a missing
`p["geometry"]["location"]`. -/
def searchStage (dist : Rat → Rat → Rat → Rat → Rat) (specialty : Option String)
    (label : String) (lat lng : Rat) (radius_km : Int)
    (placesResp : Except Unit PlacesJson) :
    Option (List String) × Except Unit FindResult :=
  match placesResp with
  | .error _ => (none, .error ())
  | .ok resp =>
    if resp.status = some "REQUEST_DENIED" then
      (none, .ok (.err "Google Places API not enabled or billing inactive."))
    else if resp.status = some "OVER_QUERY_LIMIT" then
      (none, .ok (.err "API quota exceeded."))
    else
      -- places = resp.get("results", [])[:12]   (line 115)
      let places := (resp.results.getD []).take 12
      if places.isEmpty then
        (none, .ok (.err ("No doctors found within " ++ toString radius_km ++
          " km of " ++ label ++ ".")))
      else
        match buildResults dist lat lng places with
        | .error _ => (none, .error ())
        | .ok es =>
          let ls := renderLines es 1
          (some ls, .ok (.text (finalText specialty label (String.intercalate "\n" ls))))

/-- Embedding of `find_doctors` (agent.py lines 55–150).  Arguments mirror the Python
signature (`radius_km: int = 20`); the three collaborator responses are passed
in; `dist` stands for the rounded float distance computation
`round(haversine_km(lat, lng, ·, ·), 1)` of line 125 (see the header note).
Location resolution (lines 79–95) is `resolve_location`; on success the
keyword and request parameters are shaped (lines 97–105), the nearby-search
request is issued, and its response is handled by `searchStage`. -/
def find_doctors (dist : Rat → Rat → Rat → Rat → Rat)
    (specialty city : Option String) (lat0 lng0 : Option Rat) (radius_km : Int)
    (geoResp : Except Unit GeoJson) (ipResp : Except Unit IpJson)
    (placesResp : Except Unit PlacesJson) : FindTrace :=
  match resolve_location city lat0 lng0 geoResp ipResp with
  | .exn g =>
    { calledGeocode := g, calledIp := false, resolvedLabel := none
      nearbyRequest := none, renderedLines := none, result := .error () }
  | .failed g =>
    { calledGeocode := g, calledIp := true, resolvedLabel := none
      nearbyRequest := none, renderedLines := none
      result := .ok (.err "Unable to detect your location. Please provide a city name.") }
  | .resolved lat lng label g ip =>
    -- keyword = specialty.strip() if specialty else "doctor"   (line 97)
    let keyword := match specialty with
      | some s => if s ≠ "" then pyStrip s else "doctor"
      | none => "doctor"
    -- params: radius = min(radius_km * 1000, 50000)   (lines 100–105)
    let req : NearbyRequest :=
      { lat := lat, lng := lng, radius := min (radius_km * 1000) 50000, keyword := keyword }
    let out := searchStage dist specialty label lat lng radius_km placesResp
    { calledGeocode := g, calledIp := ip, resolvedLabel := some label
      nearbyRequest := some req, renderedLines := out.1, result := out.2 }

/-! ### Concrete collaborator fixtures used for counterexamples and witnesses -/

/-- A constant stand-in for the rounded-distance computation, used only to
evaluate the pipeline at concrete inputs. -/
def d0 : Rat → Rat → Rat → Rat → Rat := fun _ _ _ _ => 0

/-- Geocoding response: status `"OK"`, first result at (28, 77). -/
def geoOkDelhi : Except Unit GeoJson :=
  .ok { status := some "OK", results := [{ lat := 28, lng := 77 }] }

/-- Geocoding response: status `"OK"`, first result on the equator (lat 0). -/
def geoZeroLat : Except Unit GeoJson :=
  .ok { status := some "OK", results := [{ lat := 0, lng := 10 }] }

/-- IP-geolocation response: success, Delhi at (28, 77). -/
def ipOkDelhi : Except Unit IpJson :=
  .ok { status := some "success", city := some "Delhi", countryCode := some "IN"
        lat := some 28, lon := some 77 }

/-- A fully populated nearby-search result entry. -/
def samplePlace : PlaceJson :=
  { name := some "Clinic A", vicinity := some "MG Road", rating := some (9 / 2)
    user_ratings_total := some 120, geometry_location := some { lat := 13, lng := 77 }
    opening_hours := some { open_now := some true } }

/-- Nearby-search response: success with an empty result list. -/
def plOkEmpty : Except Unit PlacesJson := .ok { status := some "OK", results := some [] }

/-- An upstream result list of 20 entries. -/
def l20 : List PlaceJson := List.replicate 20 samplePlace

/-- Nearby-search response: success with 20 entries. -/
def plOk20 : Except Unit PlacesJson := .ok { status := some "OK", results := some l20 }

/-- Nearby-search response with status `"REQUEST_DENIED"`. -/
def plDenied : Except Unit PlacesJson :=
  .ok { status := some "REQUEST_DENIED", results := none }

/-- Nearby-search response with status `"OVER_QUERY_LIMIT"`. -/
def plQuota : Except Unit PlacesJson :=
  .ok { status := some "OVER_QUERY_LIMIT", results := none }

/-- The place `samplePlace` with the `rating` key absent. -/
def placeNoRating : PlaceJson := { samplePlace with rating := none }

/-- The entry built from `samplePlace` with the stand-in distance `d0` and
origin (1, 2). -/
def entry20 : ResultEntry := mkEntry d0 1 2 { lat := 13, lng := 77 } samplePlace

/-- The listing rendered for the first 12 of the 20 entries of `l20`. -/
def lines20 : List String := renderLines (List.replicate 12 entry20) 1

/-- A geocoding response that raises no exception inside `geocode_city`: the
body parsed, and if the status is `"OK"` the result list is non-empty (so
`r["results"][0]` does not raise). -/
def goodGeo (g : Except Unit GeoJson) : Prop :=
  ∃ r, g = .ok r ∧ (r.status = some "OK" → r.results ≠ [])

/-- A nearby-search response that raises no exception inside `find_doctors`:
the body parsed, and every entry the `[:12]` cap can retain carries its
`geometry.location`. -/
def goodPlaces (pl : Except Unit PlacesJson) : Prop :=
  ∃ r, pl = .ok r ∧ ∀ p ∈ (r.results.getD []).take 12, p.geometry_location.isSome = true

/-! ### Helper lemmas on the rendering and result-building stages -/

theorem renderLines_length (es : List ResultEntry) : ∀ i, (renderLines es i).length = es.length := by
  induction es with
  | nil => intro i; rfl
  | cons d ds ih => intro i; simp [renderLines, ih]

theorem renderLines_getD (es : List ResultEntry) : ∀ i k, k < es.length →
    (renderLines es i).getD k "" = lineFor (i + k) (es.getD k default) := by
  induction es with
  | nil => intro i k h; simp at h
  | cons d ds ih =>
    intro i k h
    cases k with
    | zero => simp [renderLines]
    | succ k =>
      simp only [renderLines, List.getD_cons_succ]
      rw [ih (i + 1) k (by simpa using h)]
      congr 1
      omega

theorem buildResults_length (dist : Rat → Rat → Rat → Rat → Rat) (la lo : Rat) :
    ∀ ps es, buildResults dist la lo ps = .ok es → es.length = ps.length := by
  intro ps
  induction ps with
  | nil =>
    intro es h
    simp only [buildResults] at h
    cases h
    rfl
  | cons p ps ih =>
    intro es h
    simp only [buildResults] at h
    cases hg : p.geometry_location with
    | none => rw [hg] at h; cases h
    | some loc =>
      rw [hg] at h
      cases hb : buildResults dist la lo ps with
      | error e => rw [hb] at h; cases h
      | ok es2 =>
        rw [hb] at h
        cases h
        simp [ih es2 hb]

theorem buildResults_names (dist : Rat → Rat → Rat → Rat → Rat) (la lo : Rat) :
    ∀ ps es, buildResults dist la lo ps = .ok es →
      es.map (fun e => e.name) = ps.map (fun p => p.name.getD "Unknown") := by
  intro ps
  induction ps with
  | nil =>
    intro es h
    simp only [buildResults] at h
    cases h
    rfl
  | cons p ps ih =>
    intro es h
    simp only [buildResults] at h
    cases hg : p.geometry_location with
    | none => rw [hg] at h; cases h
    | some loc =>
      rw [hg] at h
      cases hb : buildResults dist la lo ps with
      | error e => rw [hb] at h; cases h
      | ok es2 =>
        rw [hb] at h
        cases h
        simp [ih es2 hb, mkEntry]

theorem buildResults_total (dist : Rat → Rat → Rat → Rat → Rat) (la lo : Rat) :
    ∀ ps, (∀ p ∈ ps, p.geometry_location.isSome) →
      ∃ es, buildResults dist la lo ps = .ok es := by
  intro ps
  induction ps with
  | nil => intro _; exact ⟨[], rfl⟩
  | cons p ps ih =>
    intro h
    obtain ⟨loc, hloc⟩ := Option.isSome_iff_exists.mp (h p (by simp))
    obtain ⟨es, hes⟩ := ih (fun q hq => h q (by simp [hq]))
    exact ⟨mkEntry dist la lo loc p :: es, by simp [buildResults, hloc, hes]⟩

/-! ### C7: the distance function -/

/-- C7: the haversine distance is zero on the diagonal
(`distance_km(P, P) == 0.0`) and symmetric in its two points
(`distance_km(A, B) == distance_km(B, A)` within the claim's 0.01 km
tolerance; the embedding over `ℝ` gives exact symmetry, which implies it). -/
theorem C7_haversine_diag_symm (lat1 lng1 lat2 lng2 : ℝ) :
    haversine_km lat1 lng1 lat1 lng1 = 0 ∧
    |haversine_km lat1 lng1 lat2 lng2 - haversine_km lat2 lng2 lat1 lng1| ≤ 1 / 100 := by
  have hsym : ∀ a b c d : ℝ, haversine_km a b c d = haversine_km c d a b := by
    intro a b c d
    have h1 : radians (a - c) / 2 = -(radians (c - a) / 2) := by unfold radians; ring
    have h2 : radians (b - d) / 2 = -(radians (d - b) / 2) := by unfold radians; ring
    have key : Real.sin (radians (c - a) / 2) ^ 2 +
        Real.cos (radians a) * Real.cos (radians c) * Real.sin (radians (d - b) / 2) ^ 2
      = Real.sin (radians (a - c) / 2) ^ 2 +
        Real.cos (radians c) * Real.cos (radians a) * Real.sin (radians (b - d) / 2) ^ 2 := by
      rw [h1, h2, Real.sin_neg, Real.sin_neg]
      ring
    unfold haversine_km
    rw [key]
  have hdiag : haversine_km lat1 lng1 lat1 lng1 = 0 := by
    unfold haversine_km
    have hz1 : radians (lat1 - lat1) / 2 = 0 := by unfold radians; ring
    have hz2 : radians (lng1 - lng1) / 2 = 0 := by unfold radians; ring
    rw [hz1, hz2, Real.sin_zero]
    norm_num [atan2, Real.sqrt_one, Real.arctan_zero]
  refine ⟨hdiag, ?_⟩
  rw [hsym lat1 lng1 lat2 lng2, sub_self, abs_zero]
  norm_num

/-! ### C1: explicit coordinates -/

theorem resolve_location_explicit (city : Option String) (la lo : Rat)
    (geoResp : Except Unit GeoJson) (ipResp : Except Unit IpJson)
    (hla : la ≠ 0) (hlo : lo ≠ 0) :
    resolve_location city (some la) (some lo) geoResp ipResp =
      .resolved la lo (pyStrOr city "your area") false false := by
  unfold resolve_location
  simp [truthyOpt, hla, hlo]

/-- C1 counterexample: with latitude `0.0` and longitude `77.0` both supplied
and non-null (and a city name present), the claim says the resolver uses them
directly and does not invoke geocoding; but the source's guard
`if city and not (lat and lng)` treats the falsy `0.0` as missing, so the
geocoding collaborator IS invoked. -/
theorem C1_zero_lat_counterexample :
    (find_doctors d0 none (some "Delhi") (some 0) (some 77) 20
      geoOkDelhi ipOkDelhi plOkEmpty).calledGeocode = true := by decide

/-- C1 (amended): when both latitude and longitude are supplied, non-null and
nonzero (Python-truthy), the resolver uses them directly as the search origin,
the label is the supplied city name when non-empty and `"your area"`
otherwise, and neither the geocoding nor the IP-geolocation collaborator is
invoked.  (A zero coordinate is falsy in the source's guards and falls back.) -/
theorem C1_explicit_coords (dist : Rat → Rat → Rat → Rat → Rat)
    (specialty city : Option String) (la lo : Rat) (radius_km : Int)
    (geoResp : Except Unit GeoJson) (ipResp : Except Unit IpJson)
    (placesResp : Except Unit PlacesJson) (hla : la ≠ 0) (hlo : lo ≠ 0) :
    (find_doctors dist specialty city (some la) (some lo) radius_km
        geoResp ipResp placesResp).calledGeocode = false ∧
    (find_doctors dist specialty city (some la) (some lo) radius_km
        geoResp ipResp placesResp).calledIp = false ∧
    (find_doctors dist specialty city (some la) (some lo) radius_km
        geoResp ipResp placesResp).resolvedLabel = some (pyStrOr city "your area") ∧
    ∃ req, (find_doctors dist specialty city (some la) (some lo) radius_km
        geoResp ipResp placesResp).nearbyRequest = some req ∧
      req.lat = la ∧ req.lng = lo := by
  unfold find_doctors
  rw [resolve_location_explicit city la lo geoResp ipResp hla hlo]
  exact ⟨rfl, rfl, rfl, _, rfl, rfl, rfl⟩

/-- Witness for `C1_explicit_coords` at supplied coordinates (28, 77) and
city `"Delhi"`. -/
theorem C1_explicit_coords_witness :
    (find_doctors d0 none (some "Delhi") (some 28) (some 77) 20
        geoOkDelhi ipOkDelhi plOkEmpty).calledGeocode = false ∧
    (find_doctors d0 none (some "Delhi") (some 28) (some 77) 20
        geoOkDelhi ipOkDelhi plOkEmpty).calledIp = false ∧
    (find_doctors d0 none (some "Delhi") (some 28) (some 77) 20
        geoOkDelhi ipOkDelhi plOkEmpty).resolvedLabel =
      some (pyStrOr (some "Delhi") "your area") ∧
    ∃ req, (find_doctors d0 none (some "Delhi") (some 28) (some 77) 20
        geoOkDelhi ipOkDelhi plOkEmpty).nearbyRequest = some req ∧
      req.lat = 28 ∧ req.lng = 77 :=
  C1_explicit_coords d0 none (some "Delhi") 28 77 20 geoOkDelhi ipOkDelhi plOkEmpty
    (by decide) (by decide)

/-! ### Shape of the trace in each resolution case -/

theorem find_doctors_exn {dist : Rat → Rat → Rat → Rat → Rat}
    {specialty city : Option String} {lat0 lng0 : Option Rat} {radius_km : Int}
    {geoResp : Except Unit GeoJson} {ipResp : Except Unit IpJson}
    {placesResp : Except Unit PlacesJson} {g : Bool}
    (hres : resolve_location city lat0 lng0 geoResp ipResp = .exn g) :
    find_doctors dist specialty city lat0 lng0 radius_km geoResp ipResp placesResp =
      { calledGeocode := g, calledIp := false, resolvedLabel := none
        nearbyRequest := none, renderedLines := none, result := .error () } := by
  unfold find_doctors
  rw [hres]

theorem find_doctors_failed {dist : Rat → Rat → Rat → Rat → Rat}
    {specialty city : Option String} {lat0 lng0 : Option Rat} {radius_km : Int}
    {geoResp : Except Unit GeoJson} {ipResp : Except Unit IpJson}
    {placesResp : Except Unit PlacesJson} {g : Bool}
    (hres : resolve_location city lat0 lng0 geoResp ipResp = .failed g) :
    find_doctors dist specialty city lat0 lng0 radius_km geoResp ipResp placesResp =
      { calledGeocode := g, calledIp := true, resolvedLabel := none
        nearbyRequest := none, renderedLines := none
        result := .ok (.err "Unable to detect your location. Please provide a city name.") } := by
  unfold find_doctors
  rw [hres]

theorem find_doctors_resolved {dist : Rat → Rat → Rat → Rat → Rat}
    {specialty city : Option String} {lat0 lng0 : Option Rat} {radius_km : Int}
    {geoResp : Except Unit GeoJson} {ipResp : Except Unit IpJson}
    {placesResp : Except Unit PlacesJson} {lat lng : Rat} {label : String} {g ip : Bool}
    (hres : resolve_location city lat0 lng0 geoResp ipResp = .resolved lat lng label g ip) :
    find_doctors dist specialty city lat0 lng0 radius_km geoResp ipResp placesResp =
      { calledGeocode := g, calledIp := ip, resolvedLabel := some label
        nearbyRequest := some
          { lat := lat, lng := lng, radius := min (radius_km * 1000) 50000
            keyword := match specialty with
              | some s => if s ≠ "" then pyStrip s else "doctor"
              | none => "doctor" }
        renderedLines := (searchStage dist specialty label lat lng radius_km placesResp).1
        result := (searchStage dist specialty label lat lng radius_km placesResp).2 } := by
  unfold find_doctors
  rw [hres]

/-! ### C3: radius cap -/

/-- C3: whenever a request is sent to the nearby-search collaborator, the
radius it carries equals `min(radius_km * 1000, 50000)` meters (so for
`radius_km = 200` exactly 50000 is sent, never 200000 — see the witness). -/
theorem C3_radius_capped (dist : Rat → Rat → Rat → Rat → Rat)
    (specialty city : Option String) (lat0 lng0 : Option Rat) (radius_km : Int)
    (geoResp : Except Unit GeoJson) (ipResp : Except Unit IpJson)
    (placesResp : Except Unit PlacesJson) (req : NearbyRequest)
    (h : (find_doctors dist specialty city lat0 lng0 radius_km geoResp ipResp
        placesResp).nearbyRequest = some req) :
    req.radius = min (radius_km * 1000) 50000 := by
  cases hres : resolve_location city lat0 lng0 geoResp ipResp with
  | exn g => rw [find_doctors_exn hres] at h; simp at h
  | failed g => rw [find_doctors_failed hres] at h; simp at h
  | resolved lat lng label g ip =>
    rw [find_doctors_resolved hres] at h
    simp only [Option.some.injEq] at h
    rw [← h]

/-- Witness for `C3_radius_capped`: with `radius_km = 200` the radius sent is
exactly 50000. -/
theorem C3_radius_capped_witness :
    (find_doctors d0 none none (some 1) (some 2) 200 geoOkDelhi ipOkDelhi
        plOkEmpty).nearbyRequest =
      some { lat := 1, lng := 2, radius := 50000, keyword := "doctor" } ∧
    ({ lat := 1, lng := 2, radius := 50000, keyword := "doctor" } : NearbyRequest).radius =
      min (200 * 1000) 50000 :=
  ⟨by decide,
    C3_radius_capped d0 none none (some 1) (some 2) 200 geoOkDelhi ipOkDelhi plOkEmpty
      { lat := 1, lng := 2, radius := 50000, keyword := "doctor" } (by decide)⟩

/-! ### C5: keyword -/

/-- C5 counterexample: for the blank (non-empty) specialty `" "`, the claim
says the keyword sent must be exactly `"doctor"`; but `" "` is Python-truthy,
so the source sends `" ".strip() = ""` instead. -/
theorem C5_blank_specialty_counterexample :
    (find_doctors d0 (some " ") none (some 1) (some 2) 20 geoOkDelhi ipOkDelhi
        plOkEmpty).nearbyRequest =
      some { lat := 1, lng := 2, radius := 20000, keyword := "" } := by decide

/-- C5 (amended): the keyword sent to the nearby-search collaborator is the
trimmed specialty string when the specialty is non-null and non-empty (for a
blank specialty this yields the empty keyword, not `"doctor"`), and is the
literal `"doctor"` exactly when the specialty is null or the empty string. -/
theorem C5_keyword (dist : Rat → Rat → Rat → Rat → Rat)
    (specialty city : Option String) (lat0 lng0 : Option Rat) (radius_km : Int)
    (geoResp : Except Unit GeoJson) (ipResp : Except Unit IpJson)
    (placesResp : Except Unit PlacesJson) (req : NearbyRequest)
    (h : (find_doctors dist specialty city lat0 lng0 radius_km geoResp ipResp
        placesResp).nearbyRequest = some req) :
    ((specialty = none ∨ specialty = some "") → req.keyword = "doctor") ∧
    (∀ s, specialty = some s → s ≠ "" → req.keyword = pyStrip s) := by
  cases hres : resolve_location city lat0 lng0 geoResp ipResp with
  | exn g => rw [find_doctors_exn hres] at h; simp at h
  | failed g => rw [find_doctors_failed hres] at h; simp at h
  | resolved lat lng label g ip =>
    rw [find_doctors_resolved hres] at h
    simp only [Option.some.injEq] at h
    constructor
    · rintro (rfl | rfl) <;> simp [← h]
    · rintro s rfl hs
      rw [← h]
      simp [hs]

/-- Witness for `C5_keyword`: with a null specialty the keyword sent is
exactly `"doctor"`. -/
theorem C5_keyword_witness :
    (find_doctors d0 none none (some 1) (some 2) 20 geoOkDelhi ipOkDelhi
        plOkEmpty).nearbyRequest =
      some { lat := 1, lng := 2, radius := 20000, keyword := "doctor" } ∧
    ({ lat := 1, lng := 2, radius := 20000, keyword := "doctor" } : NearbyRequest).keyword =
      "doctor" :=
  ⟨by decide,
    (C5_keyword d0 none none (some 1) (some 2) 20 geoOkDelhi ipOkDelhi plOkEmpty
      { lat := 1, lng := 2, radius := 20000, keyword := "doctor" } (by decide)).1
      (Or.inl rfl)⟩

/-! ### C4: city geocoding -/

/-- C4 counterexample: city `"Null Island"` supplied, no coordinates, and the
geocoding collaborator returns status `"OK"` with first result (0, 10); the
claim says the IP-geolocation collaborator must not be invoked, but the falsy
geocoded latitude `0.0` fails the source's `if not (lat and lng)` guard and
IP-geolocation IS invoked. -/
theorem C4_zero_geocode_counterexample :
    (find_doctors d0 none (some "Null Island") none none 20 geoZeroLat ipOkDelhi
      plOkEmpty).calledIp = true := by decide

/-- C4 (amended): when a non-empty city name is supplied with no coordinates
and the geocoding collaborator returns status `"OK"` whose first result has
both coordinates nonzero, the resolved search origin equals that first
result's coordinate exactly, the label is the supplied city name, and the
IP-geolocation collaborator is not invoked.  (A zero geocoded coordinate is
falsy in the source's guard and falls through to IP-lookup.) -/
theorem C4_geocode_ok (dist : Rat → Rat → Rat → Rat → Rat)
    (specialty : Option String) (c : String) (radius_km : Int) (g : GeoJson)
    (loc : GeoLocation) (rest : List GeoLocation) (ipResp : Except Unit IpJson)
    (placesResp : Except Unit PlacesJson)
    (hc : c ≠ "") (hst : g.status = some "OK") (hres : g.results = loc :: rest)
    (hla : loc.lat ≠ 0) (hlo : loc.lng ≠ 0) :
    (find_doctors dist specialty (some c) none none radius_km (.ok g) ipResp
        placesResp).calledIp = false ∧
    (find_doctors dist specialty (some c) none none radius_km (.ok g) ipResp
        placesResp).resolvedLabel = some c ∧
    ∃ req, (find_doctors dist specialty (some c) none none radius_km (.ok g) ipResp
        placesResp).nearbyRequest = some req ∧
      req.lat = loc.lat ∧ req.lng = loc.lng := by
  have hr : resolve_location (some c) none none (.ok g) ipResp =
      .resolved loc.lat loc.lng c true false := by
    unfold resolve_location geocode_city
    simp [truthyStr, truthyOpt, pyStrOr, hc, hst, hres, hla, hlo]
  rw [find_doctors_resolved hr]
  exact ⟨rfl, rfl, _, rfl, rfl, rfl⟩

/-- Witness for `C4_geocode_ok`: city `"Delhi"`, geocoding returns `"OK"`
with first result (28, 77). -/
theorem C4_geocode_ok_witness :
    (find_doctors d0 none (some "Delhi") none none 20
        (.ok { status := some "OK", results := [{ lat := 28, lng := 77 }] })
        ipOkDelhi plOkEmpty).calledIp = false ∧
    (find_doctors d0 none (some "Delhi") none none 20
        (.ok { status := some "OK", results := [{ lat := 28, lng := 77 }] })
        ipOkDelhi plOkEmpty).resolvedLabel = some "Delhi" ∧
    ∃ req, (find_doctors d0 none (some "Delhi") none none 20
        (.ok { status := some "OK", results := [{ lat := 28, lng := 77 }] })
        ipOkDelhi plOkEmpty).nearbyRequest = some req ∧
      req.lat = ({ lat := 28, lng := 77 } : GeoLocation).lat ∧
      req.lng = ({ lat := 28, lng := 77 } : GeoLocation).lng :=
  C4_geocode_ok d0 none "Delhi" 20 { status := some "OK", results := [{ lat := 28, lng := 77 }] }
    { lat := 28, lng := 77 } [] ipOkDelhi plOkEmpty
    (by decide) rfl rfl (by decide) (by decide)

/-! ### C8: upstream status errors -/

/-- C8: whenever the nearby-search request is issued, a response with status
`"REQUEST_DENIED"` makes the function return exactly the error value
`"Google Places API not enabled or billing inactive."`, and one with status
`"OVER_QUERY_LIMIT"` exactly the error value `"API quota exceeded."` — with no
results rendered in either case. -/
theorem C8_status_errors (dist : Rat → Rat → Rat → Rat → Rat)
    (specialty city : Option String) (lat0 lng0 : Option Rat) (radius_km : Int)
    (geoResp : Except Unit GeoJson) (ipResp : Except Unit IpJson) (r : PlacesJson)
    (h : (find_doctors dist specialty city lat0 lng0 radius_km geoResp ipResp
        (.ok r)).nearbyRequest.isSome = true) :
    (r.status = some "REQUEST_DENIED" →
      (find_doctors dist specialty city lat0 lng0 radius_km geoResp ipResp
          (.ok r)).result = .ok (.err "Google Places API not enabled or billing inactive.") ∧
      (find_doctors dist specialty city lat0 lng0 radius_km geoResp ipResp
          (.ok r)).renderedLines = none) ∧
    (r.status = some "OVER_QUERY_LIMIT" →
      (find_doctors dist specialty city lat0 lng0 radius_km geoResp ipResp
          (.ok r)).result = .ok (.err "API quota exceeded.") ∧
      (find_doctors dist specialty city lat0 lng0 radius_km geoResp ipResp
          (.ok r)).renderedLines = none) := by
  cases hres : resolve_location city lat0 lng0 geoResp ipResp with
  | exn g => rw [find_doctors_exn hres] at h; simp at h
  | failed g => rw [find_doctors_failed hres] at h; simp at h
  | resolved lat lng label g ip =>
    constructor
    · intro hst
      rw [find_doctors_resolved hres]
      constructor
      · show (searchStage dist specialty label lat lng radius_km (.ok r)).2 = _
        unfold searchStage
        simp [hst]
      · show (searchStage dist specialty label lat lng radius_km (.ok r)).1 = _
        unfold searchStage
        simp [hst]
    · intro hst
      rw [find_doctors_resolved hres]
      constructor
      · show (searchStage dist specialty label lat lng radius_km (.ok r)).2 = _
        unfold searchStage
        simp [hst]
      · show (searchStage dist specialty label lat lng radius_km (.ok r)).1 = _
        unfold searchStage
        simp [hst]

/-- Witness for `C8_status_errors` at a `"REQUEST_DENIED"` response. -/
theorem C8_status_errors_witness :
    (find_doctors d0 none none (some 1) (some 2) 20 geoOkDelhi ipOkDelhi
        (.ok { status := some "REQUEST_DENIED", results := none })).nearbyRequest.isSome = true ∧
    (find_doctors d0 none none (some 1) (some 2) 20 geoOkDelhi ipOkDelhi
        (.ok { status := some "REQUEST_DENIED", results := none })).result =
      .ok (.err "Google Places API not enabled or billing inactive.") ∧
    (find_doctors d0 none none (some 1) (some 2) 20 geoOkDelhi ipOkDelhi
        (.ok { status := some "REQUEST_DENIED", results := none })).renderedLines = none :=
  ⟨by decide,
    (C8_status_errors d0 none none (some 1) (some 2) 20 geoOkDelhi ipOkDelhi
      { status := some "REQUEST_DENIED", results := none } (by decide)).1 rfl⟩

/-! ### C9: empty capped result list -/

/-- C9: when the capped result list is empty (and neither error status was
reported), the function returns the error
`"No doctors found within {radius_km} km of {detected_city}."` formatted with
the originally requested `radius_km` — not the capped radius — and the
resolved location label. -/
theorem C9_empty_results (dist : Rat → Rat → Rat → Rat → Rat)
    (specialty city : Option String) (lat0 lng0 : Option Rat) (radius_km : Int)
    (geoResp : Except Unit GeoJson) (ipResp : Except Unit IpJson) (r : PlacesJson)
    (lbl : String)
    (hlbl : (find_doctors dist specialty city lat0 lng0 radius_km geoResp ipResp
        (.ok r)).resolvedLabel = some lbl)
    (h1 : r.status ≠ some "REQUEST_DENIED") (h2 : r.status ≠ some "OVER_QUERY_LIMIT")
    (he : (r.results.getD []).take 12 = []) :
    (find_doctors dist specialty city lat0 lng0 radius_km geoResp ipResp
        (.ok r)).result =
      .ok (.err ("No doctors found within " ++ toString radius_km ++ " km of " ++
        lbl ++ ".")) := by
  cases hres : resolve_location city lat0 lng0 geoResp ipResp with
  | exn g => rw [find_doctors_exn hres] at hlbl; simp at hlbl
  | failed g => rw [find_doctors_failed hres] at hlbl; simp at hlbl
  | resolved lat lng label g ip =>
    rw [find_doctors_resolved hres] at hlbl
    simp only [Option.some.injEq] at hlbl
    rw [find_doctors_resolved hres]
    show (searchStage dist specialty label lat lng radius_km (.ok r)).2 = _
    unfold searchStage
    simp [h1, h2, he, hlbl]

/-- Witness for `C9_empty_results`: requested radius 200 km (capped to 50000 m
in the request), empty result list; the message carries the original 200. -/
theorem C9_empty_results_witness :
    (find_doctors d0 none none (some 1) (some 2) 200 geoOkDelhi ipOkDelhi
        plOkEmpty).resolvedLabel = some "your area" ∧
    (find_doctors d0 none none (some 1) (some 2) 200 geoOkDelhi ipOkDelhi
        plOkEmpty).result =
      .ok (.err ("No doctors found within " ++ toString (200 : Int) ++ " km of " ++
        "your area" ++ ".")) :=
  ⟨by decide,
    C9_empty_results d0 none none (some 1) (some 2) 200 geoOkDelhi ipOkDelhi
      { status := some "OK", results := some [] } "your area" (by decide)
      (by decide) (by decide) (by decide)⟩

/-! ### C2: exception behaviour across the tool boundary -/

theorem geocode_city_ok (r : GeoJson) (himp : r.status = some "OK" → r.results ≠ []) :
    ∃ v, geocode_city (.ok r) = .ok v := by
  by_cases hst : r.status = some "OK"
  · cases hres : r.results with
    | nil => exact absurd hres (himp hst)
    | cons loc rest =>
      exact ⟨(some loc.lat, some loc.lng), by simp [geocode_city, hst, hres]⟩
  · exact ⟨(none, none), by simp [geocode_city, hst]⟩

theorem resolve_location_ne_exn (city : Option String) (lat0 lng0 : Option Rat)
    (r : GeoJson) (ipResp : Except Unit IpJson) (b : Bool)
    (himp : r.status = some "OK" → r.results ≠ []) :
    resolve_location city lat0 lng0 (.ok r) ipResp ≠ .exn b := by
  obtain ⟨v, hv⟩ : ∃ v, (if truthyStr city && !(truthyOpt lat0 && truthyOpt lng0)
      then geocode_city (.ok r) else .ok (lat0, lng0)) = .ok v := by
    by_cases hcg : (truthyStr city && !(truthyOpt lat0 && truthyOpt lng0)) = true
    · rw [if_pos hcg]
      exact geocode_city_ok r himp
    · rw [if_neg hcg]
      exact ⟨_, rfl⟩
  obtain ⟨l1, l2⟩ := v
  intro h
  simp only [resolve_location] at h
  rw [hv] at h
  split at h
  next a heq => exact Except.noConfusion heq
  next p1 p2 heq =>
    split at h
    · split at h <;> simp at h
    · simp at h

/-- C2 counterexample: the claim says network or parsing failures inside the
geocoding step are swallowed and `find_doctors` never raises; but
`geocode_city` performs its HTTP call with no `try`/`except`, so a failing
geocoding response escapes `find_doctors` as an exception (modelled as
`Except.error ()`). -/
theorem C2_geocode_failure_counterexample :
    (find_doctors d0 (some "dentist") (some "Delhi") none none 20 (.error ())
      ipOkDelhi plOkEmpty).result = .error () := rfl

/-- C2 (amended): `find_doctors` returns a value (error dict or rendered text)
whenever the geocoding and nearby-search responses it consumes are well formed
(`goodGeo`, `goodPlaces`); IP-lookup failures are always swallowed
(`get_location_from_ip` is total and its failure yields the location error
value).  Failures inside geocoding or nearby-search, however, escape as
exceptions — the nearby-search `try`/`except` is commented out and
`geocode_city` has none. -/
theorem C2_no_exception (dist : Rat → Rat → Rat → Rat → Rat)
    (specialty city : Option String) (lat0 lng0 : Option Rat) (radius_km : Int)
    (geoResp : Except Unit GeoJson) (ipResp : Except Unit IpJson)
    (placesResp : Except Unit PlacesJson)
    (hg : goodGeo geoResp) (hp : goodPlaces placesResp) :
    ∃ v, (find_doctors dist specialty city lat0 lng0 radius_km geoResp ipResp
      placesResp).result = .ok v := by
  obtain ⟨gr, rfl, himp⟩ := hg
  obtain ⟨pr, rfl, hpp⟩ := hp
  cases hres : resolve_location city lat0 lng0 (.ok gr) ipResp with
  | exn b => exact absurd hres (resolve_location_ne_exn city lat0 lng0 gr ipResp b himp)
  | failed b => exact ⟨_, by rw [find_doctors_failed hres]⟩
  | resolved lat lng label g ip =>
    rw [find_doctors_resolved hres]
    show ∃ v, (searchStage dist specialty label lat lng radius_km (.ok pr)).2 = .ok v
    unfold searchStage
    by_cases h1 : pr.status = some "REQUEST_DENIED"
    · exact ⟨.err "Google Places API not enabled or billing inactive.", by simp [h1]⟩
    by_cases h2 : pr.status = some "OVER_QUERY_LIMIT"
    · exact ⟨.err "API quota exceeded.", by simp [h1, h2]⟩
    by_cases he : ((pr.results.getD []).take 12).isEmpty = true
    · exact ⟨.err ("No doctors found within " ++ toString radius_km ++ " km of " ++
        label ++ "."), by simp [h1, h2, he]⟩
    · obtain ⟨es, hes⟩ := buildResults_total dist lat lng _ hpp
      exact ⟨.text (finalText specialty label (String.intercalate "\n" (renderLines es 1))),
        by simp [h1, h2, he, hes]⟩

/-- Witness for `C2_no_exception` on well-formed responses. -/
theorem C2_no_exception_witness :
    goodGeo geoOkDelhi ∧ goodPlaces plOk20 ∧
    ∃ v, (find_doctors d0 (some "dentist") (some "Delhi") none none 20 geoOkDelhi
      ipOkDelhi plOk20).result = .ok v :=
  ⟨⟨_, rfl, fun _ => by simp [geoOkDelhi]⟩, ⟨_, rfl, by decide⟩,
    C2_no_exception d0 (some "dentist") (some "Delhi") none none 20 geoOkDelhi
      ipOkDelhi plOk20 ⟨_, rfl, fun _ => by simp [geoOkDelhi]⟩ ⟨_, rfl, by decide⟩⟩

/-! ### C6: cap, order, and rendering -/

theorem searchStage_lines (dist : Rat → Rat → Rat → Rat → Rat)
    (specialty : Option String) (label : String) (lat lng : Rat) (radius_km : Int)
    (r : PlacesJson) (lines : List String)
    (h : (searchStage dist specialty label lat lng radius_km (.ok r)).1 = some lines) :
    ∃ es, buildResults dist lat lng ((r.results.getD []).take 12) = .ok es ∧
      lines = renderLines es 1 := by
  simp only [searchStage] at h
  split at h
  · simp at h
  · split at h
    · simp at h
    · split at h
      · simp at h
      · split at h
        next e heq => simp at h
        next es heq =>
          simp at h
          exact ⟨es, heq, h.symm⟩

/-- C6: when a listing is rendered from an upstream result list `l`, exactly
`min 12 l.length` lines are rendered (so 12 for a 20-entry list — see the
witness); the rendered entries are built from the first 12 entries of `l` in
upstream order (witnessed by the order-preserving name map), and the `k`-th
line is the 1-indexed line `lineFor (k+1)` of the `k`-th retained entry. -/
theorem C6_cap_and_order (dist : Rat → Rat → Rat → Rat → Rat)
    (specialty city : Option String) (lat0 lng0 : Option Rat) (radius_km : Int)
    (geoResp : Except Unit GeoJson) (ipResp : Except Unit IpJson)
    (st : Option String) (l : List PlaceJson) (lines : List String)
    (h : (find_doctors dist specialty city lat0 lng0 radius_km geoResp ipResp
        (.ok { status := st, results := some l })).renderedLines = some lines) :
    lines.length = min 12 l.length ∧
    ∃ la lo es, buildResults dist la lo (l.take 12) = .ok es ∧
      lines = renderLines es 1 ∧
      es.map (fun e => e.name) = (l.take 12).map (fun p => p.name.getD "Unknown") ∧
      ∀ k, k < lines.length → lines.getD k "" = lineFor (k + 1) (es.getD k default) := by
  cases hres : resolve_location city lat0 lng0 geoResp ipResp with
  | exn g => rw [find_doctors_exn hres] at h; simp at h
  | failed g => rw [find_doctors_failed hres] at h; simp at h
  | resolved lat lng label g ip =>
    rw [find_doctors_resolved hres] at h
    obtain ⟨es, hbr, hlines⟩ := searchStage_lines dist specialty label lat lng
      radius_km _ lines h
    have hbr2 : buildResults dist lat lng (l.take 12) = .ok es := hbr
    have hlen := buildResults_length dist lat lng _ es hbr2
    refine ⟨?_, lat, lng, es, hbr2, hlines, ?_, ?_⟩
    · rw [hlines, renderLines_length es 1, hlen, List.length_take]
    · exact buildResults_names dist lat lng _ es hbr2
    · intro k hk
      have hk2 : k < es.length := by
        rw [hlines, renderLines_length es 1] at hk
        exact hk
      rw [hlines, renderLines_getD es 1 k hk2, Nat.add_comm 1 k]

/-- Witness for `C6_cap_and_order`: an upstream list of 20 entries renders
exactly `min 12 20 = 12` lines. -/
theorem C6_cap_and_order_witness :
    (find_doctors d0 none none (some 1) (some 2) 20 geoOkDelhi ipOkDelhi
        plOk20).renderedLines = some lines20 ∧
    (lines20.length = min 12 l20.length ∧
      ∃ la lo es, buildResults d0 la lo (l20.take 12) = .ok es ∧
        lines20 = renderLines es 1 ∧
        es.map (fun e => e.name) = (l20.take 12).map (fun p => p.name.getD "Unknown") ∧
        ∀ k, k < lines20.length → lines20.getD k "" = lineFor (k + 1) (es.getD k default)) :=
  ⟨rfl, C6_cap_and_order d0 none none (some 1) (some 2) 20 geoOkDelhi ipOkDelhi
    (some "OK") l20 lines20 rfl⟩

/-! ### C10: missing rating -/

/-- C10: a place with no `rating` field keeps `none` as its rating in the
built entry (never a numeric default), and its rendered listing line carries
the literal `"No rating"` verbatim in the rating position (between the first
`" • "` separator and the review count). -/
theorem C10_no_rating (dist : Rat → Rat → Rat → Rat → Rat) (la lo : Rat)
    (loc : GeoLocation) (p : PlaceJson) (i : Nat) (h : p.rating = none) :
    (mkEntry dist la lo loc p).rating = none ∧
    lineFor i (mkEntry dist la lo loc p) =
      toString i ++ ". " ++ p.name.getD "Unknown" ++ " • " ++ "No rating" ++ " " ++
        toString (p.user_ratings_total.getD 0) ++ " • " ++
        ratStr (dist la lo loc.lat loc.lng) ++ " • " ++
        pyOptBoolStr (p.opening_hours.bind fun oh => oh.open_now) := by
  constructor
  · simp [mkEntry, h]
  · simp [lineFor, mkEntry, ratingStr, h]

/-- Witness for `C10_no_rating` on `placeNoRating`. -/
theorem C10_no_rating_witness :
    placeNoRating.rating = none ∧
    ((mkEntry d0 1 2 { lat := 13, lng := 77 } placeNoRating).rating = none ∧
      lineFor 1 (mkEntry d0 1 2 { lat := 13, lng := 77 } placeNoRating) =
        toString 1 ++ ". " ++ placeNoRating.name.getD "Unknown" ++ " • " ++
          "No rating" ++ " " ++ toString (placeNoRating.user_ratings_total.getD 0) ++
          " • " ++ ratStr (d0 1 2 ({ lat := 13, lng := 77 } : GeoLocation).lat
            ({ lat := 13, lng := 77 } : GeoLocation).lng) ++ " • " ++
          pyOptBoolStr (placeNoRating.opening_hours.bind fun oh => oh.open_now)) :=
  ⟨rfl, C10_no_rating d0 1 2 { lat := 13, lng := 77 } placeNoRating 1 rfl⟩
